import Mathlib

/-
Verification of the TDS virtual-TA question-answering pipeline.

The embedded code:
- `questionsE` models `questions` from app/_init_.py: look up the metadata
  records at the positions returned by the vector-index search, build the
  context and prompt, call the completion API once, and return the answer
  with one citation link per retrieved chunk.
- `get_answer` models the FastAPI endpoint in app/main.py: a templated
  answer string built from the question, and links taken from the first
  two references returned by `search_similar`.
- `html2text` models the converter in app/collectdata.py: return the
  markdown of the div with class "post", or the empty string when no such
  div is found.

External collaborators (the sentence-transformers embedder, the faiss
index and its search, bs4 parsing, markdownify, the OpenAI completion
endpoint, `search_similar` from the missing app/vector module) are
modelled as explicit parameters: the pipeline code under verification is
exactly the repository logic around them.
-/

namespace VirtualTA

/-- A metadata record as stored in the pickled `metadata` list: a dict
with a mandatory "text" entry and optional "title" and "url" entries
(the code reads `metadata[i]["text"]`, `metadata[i].get("url", "")` and
`metadata[i].get("title", "Reference")`). -/
structure ChunkRec where
  text : String
  title : Option String
  url : Option String
deriving DecidableEq, Repr

/-- One citation entry of the answer: `{"url": ..., "text": ...}`. -/
structure Link where
  url : String
  text : String
deriving DecidableEq, Repr

/-- The answer object returned by the pipeline:
`{"answer": ..., "links": ...}`. -/
structure Answer where
  answer : String
  links : List Link
deriving DecidableEq, Repr

/-- Transient network failures of the completion API call. -/
inductive NetErr where
  | timeout
  | connectionReset
deriving DecidableEq, Repr

/-- Errors a pipeline run can signal.  `invalidQuery` is the rejection of
an empty question named by the design taxonomy; `indexError i` models the
Python IndexError raised by `metadata[i]` when `i` is out of range;
`netError e` models an exception escaping from the completion call. -/
inductive QErr where
  | invalidQuery
  | indexError (i : Nat)
  | netError (e : NetErr)
deriving DecidableEq, Repr

/-- Default record used to express total lookups in theorem statements. -/
def defaultChunk : ChunkRec := { text := "", title := none, url := none }

/-- Python list indexing `metadata[i]` for a nonnegative index: the record
at position `i`, or an IndexError when `i` is out of range. -/
def lookupE (meta : List ChunkRec) (i : Nat) : Except QErr ChunkRec :=
  match meta.get? i with
  | some m => .ok m
  | none => .error (.indexError i)

/-- A Python list comprehension over the search positions that can raise:
it evaluates left to right and stops at the first error. -/
def mapE (f : Nat → Except QErr α) : List Nat → Except QErr (List α)
  | [] => .ok []
  | i :: rest =>
    match f i with
    | .error e => .error e
    | .ok a =>
      match mapE f rest with
      | .error e => .error e
      | .ok xs => .ok (a :: xs)

/-- One citation built from a record, as in line 12 of app/_init_.py:
`{"url": metadata[i].get("url", ""), "text": metadata[i].get("title", "Reference")}`. -/
def linkOf (m : ChunkRec) : Link :=
  { url := m.url.getD "", text := m.title.getD "Reference" }

/-- The context block: the text of each retrieved record, in retrieval
order, joined by a blank line (`"\n\n".join(context_chunks)`). -/
def contextOf (meta : List ChunkRec) (I0 : List Nat) : String :=
  String.intercalate "\n\n" (I0.map (fun i => (meta.getD i defaultChunk).text))

/-- The grounding prompt f-string of app/_init_.py lines 16-24. -/
def promptOf (context question : String) : String :=
  "You are a helpful virtual TA for the TDS course. Use the context below to answer the question:\n\nContext:\n"
    ++ context ++ "\n\nQuestion:\n" ++ question ++ "\n\nAnswer:"

/-- The `questions` pipeline of app/_init_.py, shallowly embedded.
`I0` is the position row `I[0]` returned by `index.search` for the
question embedding; `api n prompt` is the completion API outcome of the
`n`-th attempt on `prompt` (the code makes a single
`openai.ChatCompletion.create` call and has no exception handling, so
only attempt 0 is ever consulted and its failure propagates). -/
def questionsE (meta : List ChunkRec) (I0 : List Nat)
    (api : Nat → String → Except NetErr String) (question : String) :
    Except QErr Answer :=
  match mapE (fun i => Except.map (fun m => m.text) (lookupE meta i)) I0 with
  | .error e => .error e
  | .ok context_chunks =>
    match mapE (fun i => Except.map linkOf (lookupE meta i)) I0 with
    | .error e => .error e
    | .ok urls =>
      let context := String.intercalate "\n\n" context_chunks
      let prompt := promptOf context question
      match api 0 prompt with
      | .error e => .error (.netError e)
      | .ok content => .ok { answer := content.trim, links := urls }

/-- The retrieval step of `questions` (embed, search, fetch metadata),
returning each retrieved Chunk Record tagged with its index position
(the record identity of the data model: id = position in index). -/
def retrieveE (meta : List ChunkRec) (I0 : List Nat) :
    Except QErr (List (Nat × ChunkRec)) :=
  mapE (fun i => Except.map (fun m => (i, m)) (lookupE meta i)) I0

/-- Modelled from the spec: the faiss index object and its `search`
method are not repository source (the index is unpickled from a data
file).  Section 4.2 of the design gives the Vector Index contract used
here: `search` on an index of `n` vectors with budget `k` returns
`min k n` distinct positions, each a valid index position, best-first;
a small corpus yields fewer than `k` positions, never padding. -/
def searchContract (n k : Nat) (I0 : List Nat) : Prop :=
  I0.length = min k n ∧ I0.Nodup ∧ ∀ i ∈ I0, i < n

/-- The `Query` request model of app/main.py: a question and an optional
base64 image. -/
structure Query where
  question : String
  image : Option String
deriving DecidableEq, Repr

/-- The `get_answer` endpoint of app/main.py, shallowly embedded.
`search_similar` (imported from the app.vector module) is passed as a
function of the question, exactly as called on line 34; the answer is
the f-string template of line 38 and the links are built from the first
two references (`references[:2]`). -/
def get_answer (search_similar : String → List (String × String))
    (query : Query) : Answer :=
  let question := query.question
  let references := search_similar question
  { answer := "Based on course discussion, the best approach for: \x27"
      ++ question ++ "\x27 is to use GPT-3.5 Turbo.",
    links := (references.take 2).map (fun r => { url := r.1, text := r.2 }) }

/-- The div with class "post" located by BeautifulSoup, carrying its
serialized HTML (`str(content_div)`). -/
structure PostDiv where
  html : String
deriving DecidableEq, Repr

/-- The `html2text` converter of app/collectdata.py.  The bs4 search for
the div with class "post" and the markdownify conversion are external
library calls, passed as the parameters `findPostDiv` and `md`; the
repository logic is the guard: no div found means the empty string. -/
def html2text (findPostDiv : String → Option PostDiv)
    (md : PostDiv → String) (html : String) : String :=
  match findPostDiv html with
  | none => ""
  | some d => md d

/-- Does a pipeline outcome signal the `InvalidQuery` rejection? -/
def isInvalidQueryResult : Except QErr Answer → Bool
  | .error .invalidQuery => true
  | _ => false

/-- The url column of the links of a successful pipeline outcome. -/
def answerLinksUrls : Except QErr Answer → List String
  | .ok a => a.links.map (fun l => l.url)
  | .error _ => []

/-- Substring containment, stated by explicit decomposition. -/
def containsSub (s t : String) : Prop :=
  ∃ pre post, s = pre ++ (t ++ post)

theorem lookupE_ok (meta : List ChunkRec) (i : Nat) (hi : i < meta.length) :
    lookupE meta i = .ok (meta.getD i defaultChunk) := by
  unfold lookupE
  rw [List.get?_eq_get hi]
  have h2 : meta.getD i defaultChunk = meta.get ⟨i, hi⟩ := by
    rw [List.getD_eq_get? meta i defaultChunk, List.get?_eq_get hi]
    rfl
  rw [h2]

theorem lookupE_error (meta : List ChunkRec) (i : Nat) (e : QErr)
    (h : lookupE meta i = .error e) : e = QErr.indexError i := by
  unfold lookupE at h
  cases hg : meta.get? i with
  | some m => rw [hg] at h; exact Except.noConfusion h
  | none =>
    rw [hg] at h
    exact (Except.error.injEq _ _ ▸ h).symm

theorem mapE_ok_of_forall {α : Type} (f : Nat → Except QErr α) (v : Nat → α)
    (I0 : List Nat) (hf : ∀ i ∈ I0, f i = .ok (v i)) :
    mapE f I0 = .ok (I0.map v) := by
  induction I0 with
  | nil => rfl
  | cons i rest ih =>
    have hi := hf i (by simp)
    have hrest : ∀ j ∈ rest, f j = .ok (v j) := fun j hj => hf j (by simp [hj])
    simp only [mapE, hi, ih hrest, List.map]

theorem mapE_error_shape {α : Type} (f : Nat → Except QErr α) (I0 : List Nat)
    (e : QErr)
    (hf : ∀ i e2, f i = .error e2 → ∃ j, e2 = QErr.indexError j)
    (h : mapE f I0 = .error e) :
    ∃ j, e = QErr.indexError j := by
  induction I0 with
  | nil => exact Except.noConfusion h
  | cons i rest ih =>
    rw [mapE] at h
    cases hl : f i with
    | error em =>
      rw [hl] at h
      injection h with h2
      exact h2 ▸ hf i em hl
    | ok a =>
      rw [hl] at h
      cases hr : mapE f rest with
      | error e2 =>
        rw [hr] at h
        injection h with h2
        exact ih (h2 ▸ hr)
      | ok xs => rw [hr] at h; exact Except.noConfusion h

theorem lookupE_map_ne_error {α : Type} (meta : List ChunkRec)
    (g : ChunkRec → α) (i : Nat) (e : QErr)
    (h : Except.map g (lookupE meta i) = .error e) : ∃ j, e = QErr.indexError j := by
  cases hl : lookupE meta i with
  | error em =>
    rw [hl] at h
    simp only [Except.map] at h
    injection h with h2
    exact ⟨i, h2 ▸ lookupE_error meta i em hl⟩
  | ok m =>
    rw [hl] at h
    simp only [Except.map] at h
    exact Except.noConfusion h

theorem questionsE_eq (meta : List ChunkRec) (I0 : List Nat)
    (api : Nat → String → Except NetErr String) (question : String)
    (hin : ∀ i ∈ I0, i < meta.length) :
    questionsE meta I0 api question =
      match api 0 (promptOf (contextOf meta I0) question) with
      | .error e => .error (.netError e)
      | .ok content => .ok
          { answer := content.trim,
            links := I0.map (fun i => linkOf (meta.getD i defaultChunk)) } := by
  unfold questionsE
  rw [mapE_ok_of_forall _ (fun i => (meta.getD i defaultChunk).text) I0
        (fun i hi => by rw [lookupE_ok meta i (hin i hi)]; rfl),
      mapE_ok_of_forall _ (fun i => linkOf (meta.getD i defaultChunk)) I0
        (fun i hi => by rw [lookupE_ok meta i (hin i hi)]; rfl)]
  rfl

/-- C6: `compose` on an empty Retrieval Result (an empty search row) still
returns an answer whose `links` list is empty and whose context block is
the empty string; the empty retrieval is not an error. -/
theorem compose_empty_retrieval (meta : List ChunkRec)
    (api : Nat → String → Except NetErr String) (q s : String)
    (h : api 0 (promptOf (contextOf meta []) q) = Except.ok s) :
    questionsE meta [] api q = .ok { answer := s.trim, links := [] } ∧
    contextOf meta [] = "" := by
  constructor
  · rw [questionsE_eq meta [] api q (by simp), h]
    rfl
  · rfl

theorem compose_empty_retrieval_witness :
    questionsE [] [] (fun _ _ => Except.ok "hello") "why"
        = .ok { answer := ("hello" : String).trim, links := [] } ∧
    contextOf [] [] = "" :=
  compose_empty_retrieval [] (fun _ _ => Except.ok "hello") "why" "hello" rfl

/-- C7: the grounding prompt sent to the completion API contains, as
substrings, the full context block (the chunk texts joined by a blank
line, in retrieval order), the verbatim question, and the instruction to
answer using the context; and the pipeline consults the API on exactly
that prompt, returning the trimmed response as the answer. -/
theorem prompt_grounding (meta : List ChunkRec) (I0 : List Nat) (q : String) :
    containsSub (promptOf (contextOf meta I0) q) (contextOf meta I0) ∧
    containsSub (promptOf (contextOf meta I0) q) q ∧
    containsSub (promptOf (contextOf meta I0) q)
      "Use the context below to answer the question" ∧
    (∀ (api : Nat → String → Except NetErr String) (s : String),
      (∀ i ∈ I0, i < meta.length) →
      api 0 (promptOf (contextOf meta I0) q) = Except.ok s →
      ∃ a, questionsE meta I0 api q = .ok a ∧ a.answer = s.trim) := by
  refine ⟨?_, ?_, ?_, ?_⟩
  · refine ⟨"You are a helpful virtual TA for the TDS course. Use the context below to answer the question:\n\nContext:\n",
      "\n\nQuestion:\n" ++ q ++ "\n\nAnswer:", ?_⟩
    simp only [promptOf, String.append_assoc]
  · refine ⟨"You are a helpful virtual TA for the TDS course. Use the context below to answer the question:\n\nContext:\n"
        ++ contextOf meta I0 ++ "\n\nQuestion:\n", "\n\nAnswer:", ?_⟩
    simp only [promptOf, String.append_assoc]
  · refine ⟨"You are a helpful virtual TA for the TDS course. ",
      ":\n\nContext:\n" ++ contextOf meta I0 ++ "\n\nQuestion:\n" ++ q ++ "\n\nAnswer:", ?_⟩
    have hsplit :
        ("You are a helpful virtual TA for the TDS course. Use the context below to answer the question:\n\nContext:\n" : String)
          = "You are a helpful virtual TA for the TDS course. "
            ++ "Use the context below to answer the question" ++ ":\n\nContext:\n" := rfl
    rw [promptOf, hsplit]
    simp only [String.append_assoc]
  · intro api s hin h
    refine ⟨{ answer := s.trim,
              links := I0.map (fun i => linkOf (meta.getD i defaultChunk)) }, ?_, rfl⟩
    rw [questionsE_eq meta I0 api q hin, h]

theorem prompt_grounding_witness :
    ∃ a, questionsE [{ text := "T", title := none, url := none }] [0]
        (fun _ _ => Except.ok "A") "Q" = .ok a ∧ a.answer = ("A" : String).trim :=
  (prompt_grounding [{ text := "T", title := none, url := none }] [0] "Q").2.2.2
    (fun _ _ => Except.ok "A") "A" (by decide) rfl

/-- C8: the optional image on a query has no influence on the computed
answer object: two queries with the same question and different (or
absent) images produce the same Answer from the endpoint. -/
theorem get_answer_image_independent
    (sim : String → List (String × String)) (q : String)
    (img img2 : Option String) :
    get_answer sim { question := q, image := img }
      = get_answer sim { question := q, image := img2 } := rfl

/-- C9: the `answer` string of the endpoint is a fixed template of the
question alone, independent of the retrieved references (and of any
completion API, which the endpoint never calls). -/
theorem get_answer_fixed_template
    (sim sim2 : String → List (String × String)) (q : String)
    (img img2 : Option String) :
    (get_answer sim { question := q, image := img }).answer
        = (get_answer sim2 { question := q, image := img2 }).answer ∧
    (get_answer sim { question := q, image := img }).answer
        = "Based on course discussion, the best approach for: \x27"
            ++ q ++ "\x27 is to use GPT-3.5 Turbo." :=
  ⟨rfl, rfl⟩

/-- C10: when no div element with class "post" is found in the input
HTML, `html2text` returns the empty string (it neither errors nor
converts the whole document). -/
theorem html2text_no_post_div (findPostDiv : String → Option PostDiv)
    (md : PostDiv → String) (html : String)
    (hnone : findPostDiv html = none) :
    html2text findPostDiv md html = "" := by
  unfold html2text
  rw [hnone]

theorem html2text_no_post_div_witness :
    html2text (fun _ => none) (fun d => d.html) "<p>no post div here</p>" = "" :=
  html2text_no_post_div (fun _ => none) (fun d => d.html) "<p>no post div here</p>" rfl

/-- C1 counterexample: with two retrieved chunks sharing url "A", the
composed links carry the url twice; the code performs no deduplication,
so the claim that `links` contains no two entries with the same url
fails on this input. -/
theorem compose_links_share_url_counterexample :
    answerLinksUrls (questionsE
        [{ text := "t1", title := some "T1", url := some "A" },
         { text := "t2", title := some "T2", url := some "A" }]
        [0, 1] (fun _ _ => Except.ok "ans") "q")
      = ["A", "A"] ∧
    ¬ (["A", "A"] : List String).Nodup :=
  ⟨rfl, by decide⟩

/-- C1 amended: the composer applies no url deduplication at all: the url
column of `links` is exactly the url of each retrieved chunk, in
relevance order, so every occurrence of a shared url appears. -/
theorem compose_links_no_dedup (meta : List ChunkRec) (I0 : List Nat)
    (api : Nat → String → Except NetErr String) (q s : String)
    (hin : ∀ i ∈ I0, i < meta.length)
    (h : api 0 (promptOf (contextOf meta I0) q) = Except.ok s) :
    ∃ a, questionsE meta I0 api q = .ok a ∧
      a.links.map (fun l => l.url)
        = I0.map (fun i => (meta.getD i defaultChunk).url.getD "") := by
  refine ⟨{ answer := s.trim,
            links := I0.map (fun i => linkOf (meta.getD i defaultChunk)) }, ?_, ?_⟩
  · rw [questionsE_eq meta I0 api q hin, h]
  · rw [List.map_map]
    rfl

theorem compose_links_no_dedup_witness :
    ∃ a, questionsE
        [{ text := "x1", title := none, url := some "U" },
         { text := "x2", title := none, url := some "U" }]
        [0, 1] (fun _ _ => Except.ok "ok") "qq" = .ok a ∧
      a.links.map (fun l => l.url) = ["U", "U"] :=
  compose_links_no_dedup
    [{ text := "x1", title := none, url := some "U" },
     { text := "x2", title := none, url := some "U" }]
    [0, 1] (fun _ _ => Except.ok "ok") "qq" "ok" (by decide) rfl

/-- C2: on an index snapshot of N chunks, a search budget larger than N
yields exactly N retrieved records, with no error raised and no
duplicate Chunk Record (the search positions are distinct and each is
paired with its record; nothing is padded).  The vector-index search
itself is external, constrained by `searchContract`. -/
theorem retrieve_topk_exceeding_corpus (meta : List ChunkRec) (k : Nat)
    (I0 : List Nat) (hk : meta.length < k)
    (hc : searchContract meta.length k I0) :
    ∃ res, retrieveE meta I0 = .ok res ∧
      res.length = meta.length ∧ res.Nodup := by
  obtain ⟨hlen, hnd, hbound⟩ := hc
  refine ⟨I0.map (fun i => (i, meta.getD i defaultChunk)), ?_, ?_, ?_⟩
  · unfold retrieveE
    exact mapE_ok_of_forall _ (fun i => (i, meta.getD i defaultChunk)) I0
      (fun i hi => by rw [lookupE_ok meta i (hbound i hi)]; rfl)
  · rw [List.length_map, hlen, Nat.min_eq_right (Nat.le_of_lt hk)]
  · exact hnd.map (fun a b hab => congrArg Prod.fst hab)

theorem retrieve_topk_exceeding_corpus_witness :
    ∃ res, retrieveE [{ text := "t", title := none, url := none }] [0] = .ok res ∧
      res.length = 1 ∧ res.Nodup :=
  retrieve_topk_exceeding_corpus [{ text := "t", title := none, url := none }] 2 [0]
    (by decide) ⟨by decide, by decide, by decide⟩

/-- C3 counterexample: the empty question is whitespace-only, yet the
pipeline runs the embed-and-search path and returns an ordinary answer;
no `InvalidQuery` rejection happens. -/
theorem empty_question_not_rejected :
    ("" : String).isEmpty = true ∧
    questionsE [] [] (fun _ _ => Except.ok "ans") ""
      = .ok { answer := ("ans" : String).trim, links := [] } ∧
    questionsE [] [] (fun _ _ => Except.ok "ans") "" ≠ .error QErr.invalidQuery := by
  refine ⟨rfl, rfl, ?_⟩
  intro hcon
  rw [show questionsE [] [] (fun _ _ => Except.ok "ans") ""
        = .ok { answer := ("ans" : String).trim, links := [] } from rfl] at hcon
  exact Except.noConfusion hcon

/-- C3 amended: the code performs no validation of the question at all:
no run of the pipeline, on any input, signals the `InvalidQuery`
rejection (empty and whitespace-only questions included). -/
theorem no_invalid_query_signal (meta : List ChunkRec) (I0 : List Nat)
    (api : Nat → String → Except NetErr String) (q : String) :
    isInvalidQueryResult (questionsE meta I0 api q) = false := by
  unfold questionsE
  cases h1 : mapE (fun i => Except.map (fun m => m.text) (lookupE meta i)) I0 with
  | error e =>
    obtain ⟨j, rfl⟩ := mapE_error_shape _ I0 e
      (fun i e2 he => lookupE_map_ne_error meta _ i e2 he) h1
    rfl
  | ok context_chunks =>
    cases h2 : mapE (fun i => Except.map linkOf (lookupE meta i)) I0 with
    | error e =>
      obtain ⟨j, rfl⟩ := mapE_error_shape _ I0 e
        (fun i e2 he => lookupE_map_ne_error meta _ i e2 he) h2
      rfl
    | ok urls =>
      show isInvalidQueryResult
          (match api 0 (promptOf (String.intercalate "\n\n" context_chunks) q) with
            | Except.error e => Except.error (QErr.netError e)
            | Except.ok content => Except.ok { answer := content.trim, links := urls })
        = false
      cases api 0 (promptOf (String.intercalate "\n\n" context_chunks) q) with
      | error e => rfl
      | ok content => rfl

/-- C4 counterexample: the completion API fails with a timeout on the
first attempt and would succeed on a second attempt; the pipeline
surfaces the network failure immediately instead of retrying, so the
claimed retry-once behaviour fails on this input. -/
theorem completion_failure_not_retried :
    (fun n (_ : String) =>
        if n = 0 then Except.error NetErr.timeout else Except.ok "recovered") 0 "x"
      = Except.error NetErr.timeout ∧
    (fun n (_ : String) =>
        if n = 0 then Except.error NetErr.timeout else Except.ok "recovered") 1 "x"
      = Except.ok "recovered" ∧
    questionsE [] []
        (fun n _ => if n = 0 then Except.error NetErr.timeout else Except.ok "recovered") "q"
      = .error (.netError NetErr.timeout) :=
  ⟨rfl, rfl, rfl⟩

/-- C4 amended: the completion call is attempted exactly once: the
pipeline outcome depends only on attempt 0 of the API, and when that
attempt fails with a transient network failure the raw failure is
surfaced unretried (and no partial or fabricated answer is returned). -/
theorem completion_single_attempt :
    (∀ (meta : List ChunkRec) (I0 : List Nat)
        (api api2 : Nat → String → Except NetErr String) (q : String),
        api 0 = api2 0 →
        questionsE meta I0 api q = questionsE meta I0 api2 q) ∧
    (∀ (meta : List ChunkRec) (I0 : List Nat)
        (api : Nat → String → Except NetErr String) (q : String) (e : NetErr),
        (∀ i ∈ I0, i < meta.length) →
        (∀ p, api 0 p = .error e) →
        questionsE meta I0 api q = .error (.netError e)) := by
  constructor
  · intro meta I0 api api2 q h0
    unfold questionsE
    rw [h0]
  · intro meta I0 api q e hin hfail
    rw [questionsE_eq meta I0 api q hin, hfail]

theorem completion_single_attempt_witness :
    questionsE [] []
        (fun n _ => if n = 0 then Except.error NetErr.timeout else Except.ok "r") "w"
      = questionsE [] [] (fun _ _ => Except.error NetErr.timeout) "w" ∧
    questionsE [] [] (fun _ _ => Except.error NetErr.timeout) "w"
      = .error (.netError NetErr.timeout) :=
  ⟨completion_single_attempt.1 [] []
      (fun n _ => if n = 0 then Except.error NetErr.timeout else Except.ok "r")
      (fun _ _ => Except.error NetErr.timeout) "w" rfl,
   completion_single_attempt.2 [] [] (fun _ _ => Except.error NetErr.timeout) "w"
      NetErr.timeout (by decide) (fun _ => rfl)⟩

/-- C5 counterexample: the service endpoint truncates the citation list:
with three retrieved references it returns only two links, so the third
retrieved chunk's citation is dropped, against the claim that no
citation is dropped by truncation. -/
theorem service_links_truncated :
    ((fun _ => [("u1", "t1"), ("u2", "t2"), ("u3", "t3")] :
        String → List (String × String)) "q").length = 3 ∧
    (get_answer (fun _ => [("u1", "t1"), ("u2", "t2"), ("u3", "t3")])
        { question := "q", image := none }).links.length = 2 :=
  ⟨rfl, rfl⟩

/-- C5 amended: in the RAG composer `questions`, `links` has one
{ url, text } entry per retrieved chunk, from its url and title (with
the "Reference" default), in retrieval order and untruncated; the
service endpoint `get_answer`, however, keeps only the first two
references. -/
theorem links_per_chunk_with_service_truncation :
    (∀ (meta : List ChunkRec) (I0 : List Nat)
        (api : Nat → String → Except NetErr String) (q s : String),
        (∀ i ∈ I0, i < meta.length) →
        api 0 (promptOf (contextOf meta I0) q) = Except.ok s →
        ∃ a, questionsE meta I0 api q = .ok a ∧
          a.links = I0.map (fun i => linkOf (meta.getD i defaultChunk))) ∧
    (∀ (sim : String → List (String × String)) (query : Query),
        (get_answer sim query).links
          = ((sim query.question).take 2).map
              (fun r => { url := r.1, text := r.2 })) := by
  constructor
  · intro meta I0 api q s hin h
    refine ⟨{ answer := s.trim,
              links := I0.map (fun i => linkOf (meta.getD i defaultChunk)) }, ?_, rfl⟩
    rw [questionsE_eq meta I0 api q hin, h]
  · intro sim query
    rfl

theorem links_per_chunk_with_service_truncation_witness :
    (∃ a, questionsE [{ text := "m", title := some "Ttl", url := some "W" }] [0]
        (fun _ _ => Except.ok "resp") "qn" = .ok a ∧
      a.links = [{ url := "W", text := "Ttl" }]) ∧
    (get_answer (fun _ => [("a", "b")]) { question := "z", image := none }).links
        = [{ url := "a", text := "b" }] :=
  ⟨links_per_chunk_with_service_truncation.1
      [{ text := "m", title := some "Ttl", url := some "W" }] [0]
      (fun _ _ => Except.ok "resp") "qn" "resp" (by decide) rfl,
   links_per_chunk_with_service_truncation.2 (fun _ => [("a", "b")])
      { question := "z", image := none }⟩

end VirtualTA
